import Mathlib

/-
Verification of the SHMEXO radiation/reaction core against its specification.

The embedding below translates the relevant C++ source files into Lean:
  * drum/pgen/tripathi.cpp        (ad hoc photoionization problem generator)
  * src/pgen/tripathi.cpp         (generalized problem generator)
  * src/radiation/absorber/ionizing_absorber.cpp
  * src/radiation/absorber/helium_ionization.cpp
  * src/radiation/radiation.cpp
Real-typed quantities are embedded as rationals; transcendental library
functions (pow with non-integer exponents, exp) are passed in as abstract
function parameters, since the identities verified here do not depend on
their values.
-/

namespace SHMEXO

/-! ## Physical constants (drum/pgen/tripathi.cpp, file scope) -/

/-- hydrogen mass, kg: `Real mh=1.674E-27`. -/
def mh : ℚ := 1674 / 10 ^ 30

/-- Rydberg energy, J: `Real Ry=2.1798723611E-18`. -/
def Ry : ℚ := 21798723611 / 10 ^ 28

/-- hydrogen ionization wavelength, nm: `Real nm_0=91.126705058`. -/
def nm0 : ℚ := 91126705058 / 10 ^ 9

/-- Boltzmann constant, J/K: `Real kb = 1.3806504E-23`. -/
def kbC : ℚ := 13806504 / 10 ^ 30

/-! ## drum/pgen/tripathi.cpp : EnergyAbsorption

`EnergyAbsorption(pabs, wave, flux, k, j, i)` returns the flux kept as heat
and accumulates the remainder into `rad_flux_ion(k,j,i)`.  We return the
pair (returned flux, updated rad_flux_ion cell value). -/

def energyAbsorption (conv flux radFluxIonCell wave : ℚ) : ℚ × ℚ :=
  let wave_nm := (wave * conv) * 10 ^ 9
  if wave_nm > nm0 then
    -- energy not absorbed
    (flux, radFluxIonCell)
  else
    -- Real energy_fraction = 0.15;  (the 1 - wave_nm/nm_0 line is commented out)
    let energy_fraction : ℚ := 15 / 100
    (flux * energy_fraction, radFluxIonCell + (1 - energy_fraction) * flux)

/-! ## drum/pgen/tripathi.cpp : SourceTerms (per-cell body)

All inputs read by one iteration of the innermost loop are gathered in
`DrumCellIn`; the written outputs in `DrumCellOut`.  `powQ` stands for the
C `pow` function and `expQ` for `exp` (abstract). -/

structure DrumCellIn where
  s0 : ℚ            -- ps->s(0,k,j,i), neutral hydrogen mass density
  s1 : ℚ            -- ps->s(1,k,j,i), ionized hydrogen mass density
  radFluxIon : ℚ    -- rad_flux_ion(k,j,i)
  dt : ℚ
  vol : ℚ           -- vol(i)
  wIPR : ℚ          -- w(IPR,k,j,i)
  wIDN : ℚ          -- w(IDN,k,j,i)
  rIon : ℚ          -- ps->r(1,k,j,i)
  rd : ℚ            -- pmb->pthermo->GetRd()
  duIEN : ℚ         -- du(IEN,k,j,i) on entry
  ds0 : ℚ           -- ds(0,k,j,i) on entry
  ds1 : ℚ           -- ds(1,k,j,i) on entry
deriving DecidableEq, Repr

structure DrumCellOut where
  duIEN : ℚ
  ds0 : ℚ
  ds1 : ℚ
  ionizationRate : ℚ
  recombinationRate : ℚ
  overshoot : Bool   -- n_ion_gain > n_neu: the code builds a FATAL ERROR
                     -- message here but never raises it
deriving DecidableEq, Repr

/-- `n_ion_gain = (-dt * rad_flux_ion(k,j,i)) / Ry / vol(i)`. -/
def nIonGain (c : DrumCellIn) : ℚ := (-c.dt * c.radFluxIon) / Ry / c.vol

/-- `T = w(IPR)/(R*w(IDN)); T = T * (1 - ion_f/2)`. -/
def tempOf (c : DrumCellIn) : ℚ := (c.wIPR / (c.rd * c.wIDN)) * (1 - c.rIon / 2)

/-- `n_recomb = dt * alpha_B * n_ion^2` with `alpha_B = 2.59E-19 * pow(T/1e4, -0.7)`. -/
def nRecomb (powQ : ℚ → ℚ → ℚ) (c : DrumCellIn) : ℚ :=
  let T := tempOf c
  let alphaB := (259 / 10 ^ 21) * powQ (T / 10 ^ 4) (-(7 / 10))
  c.dt * alphaB * ((c.s1 / mh) * (c.s1 / mh))

def drumSourceTermsCell (powQ : ℚ → ℚ → ℚ) (expQ : ℚ → ℚ) (c : DrumCellIn) :
    DrumCellOut :=
  let n_ion := c.s1 / mh
  let n_neu := c.s0 / mh
  let n_ion_gain := nIonGain c
  -- `if (n_ion_gain > n_neu) { ... }` constructs a message, aborts nothing
  let overshoot := decide (n_ion_gain > n_neu)
  let T := tempOf c
  let n_recomb := nRecomb powQ c
  let recomb_cooling_const := (611 / 10 ^ 18) * powQ T (-(89 / 100))
  let recomb_cooling_rate := recomb_cooling_const * (kbC * T) * (n_ion * n_ion)
  let lya_cooling_const := (75 / 10 ^ 33) * expQ (-(118348 : ℚ) / T)
  let lya_cooling_rate := lya_cooling_const * n_ion * n_neu
  { duIEN := c.duIEN - (recomb_cooling_rate + lya_cooling_rate) * c.dt
    ds0 := c.ds0 + (n_recomb - n_ion_gain) * mh
    ds1 := c.ds1 + (-n_recomb + n_ion_gain) * mh
    ionizationRate := n_ion_gain / c.dt
    recombinationRate := n_recomb / c.dt
    overshoot := overshoot }

/-! ## src/radiation/absorber/ionizing_absorber.cpp :
IonizingAbsorber::CalculateEnergyFunctions

Per spectral sample `n`, with `wave = spec[n].wave * wavelength_coefficient`:
`if (wave > lambda_0) { h(n)=0; q(n)=0; } else { h(n)=wave/lambda_0; q(n)=1-h(n); }`. -/

def energyPartition (lambda0 wave : ℚ) : ℚ × ℚ :=
  if wave > lambda0 then (0, 0) else (wave / lambda0, 1 - wave / lambda0)

/-- The whole loop of `CalculateEnergyFunctions` over the band's samples. -/
def calculateEnergyFunctions (lambda0 coeff : ℚ) (waves : List ℚ) : List (ℚ × ℚ) :=
  waves.map (fun w => energyPartition lambda0 (w * coeff))

/-! ## Tabulated cross sections

`src/radiation/absorber/helium_ionization.cpp` reads a two-column table and
evaluates it with `spline`/`splint`/`find_place_in_table` from
src/math/interpolation.h. -/

structure TableRow where
  x : ℚ
  y : ℚ
deriving DecidableEq, Repr, Inhabited

/-- Modelled from the spec: natural cubic-spline second derivatives (zero
second derivative at both endpoints), computed by the standard O(n)
tridiagonal sweep.  The repository's `spline` (src/math/interpolation.h) is
not under src/; only its caller is. -/
def splineSecondDerivs (rows : Array TableRow) : Array ℚ := Id.run do
  let n := rows.size
  if n < 2 then return Array.mkArray n 0
  let mut y2 : Array ℚ := Array.mkArray n 0
  let mut u : Array ℚ := Array.mkArray n 0
  for i in [1:n-1] do
    let sig := (rows[i]!.x - rows[i-1]!.x) / (rows[i+1]!.x - rows[i-1]!.x)
    let p := sig * y2[i-1]! + 2
    y2 := y2.set! i ((sig - 1) / p)
    u := u.set! i ((6 * ((rows[i+1]!.y - rows[i]!.y) / (rows[i+1]!.x - rows[i]!.x)
            - (rows[i]!.y - rows[i-1]!.y) / (rows[i]!.x - rows[i-1]!.x))
          / (rows[i+1]!.x - rows[i-1]!.x) - sig * u[i-1]!) / p)
  -- natural boundary: y2[n-1] = 0, then back-substitution
  for t in [0:n-1] do
    let i := n - 2 - t
    y2 := y2.set! i (y2[i]! * y2[i+1]! + u[i]!)
  return y2

/-- Modelled from the spec: locate the bracketing interval for `v`
(`find_place_in_table`, src/math/interpolation.h, not under src/): the
largest index `i ≤ n-2` with `rows[i].x ≤ v`, else 0. -/
def findPlace (rows : Array TableRow) (v : ℚ) : ℕ := Id.run do
  let n := rows.size
  let mut i := 0
  for j in [1:n-1] do
    if rows[j]!.x ≤ v then i := j
  return i

/-- Modelled from the spec: cubic-spline evaluation on one bracketing
interval (`splint`, src/math/interpolation.h, not under src/). -/
def splint (lo hi : TableRow) (y2lo y2hi : ℚ) (v : ℚ) : ℚ :=
  let h := hi.x - lo.x
  let a := (hi.x - v) / h
  let b := (v - lo.x) / h
  a * lo.y + b * hi.y + ((a ^ 3 - a) * y2lo + (b ^ 3 - b) * y2hi) * h ^ 2 / 6

/-- The ascending-order scan of
`HeliumIonization::CalculateCrossSections`: row `i` is rejected iff
`i > 0 && file_spec[i].x < file_spec[i-1].x`. -/
def loadScanOk : List TableRow → Bool
  | [] => true
  | [_] => true
  | a :: b :: rest => if b.x < a.x then false else loadScanOk (b :: rest)

/-- Loading a cross-section table (`CalculateCrossSections`, file-reading
part): fatal "must be in ascending order" error iff the scan rejects. -/
def loadTable (rows : List TableRow) : Except String (List TableRow) :=
  if loadScanOk rows then Except.ok rows
  else Except.error "must be in ascending order"

/-- Per-sample evaluation branch of
`HeliumIonization::CalculateCrossSections`: below the lowest tabulated
energy the cross section is 0; above the highest it is a fatal error;
otherwise spline interpolation at `ry` on the bracketing interval,
converted by `mb_conversion`. -/
def calculateCrossSection (mbConv : ℚ) (rows : Array TableRow) (energy ry : ℚ) :
    Except String ℚ :=
  if rows.size = 0 then Except.error "empty table"
  else if energy < rows[0]!.x then Except.ok 0
  else if energy > rows[rows.size - 1]!.x then Except.error "Energy too high error."
  else
    let y2 := splineSecondDerivs rows
    let ii := findPlace rows ry
    Except.ok (mbConv * splint rows[ii]! rows[ii+1]! y2[ii]! y2[ii+1]! ry)

/-! ## src/pgen/tripathi.cpp : species and initial abundances

`enum species {ELEC = 0, HYD = 1, HPLUS = 2};` with NSCALARS = 3. -/

def ELEC : Fin 3 := 0
def HYD : Fin 3 := 1
def HPLUS : Fin 3 := 2

/-- `SetInitialAbundances` for one cell: number densities chosen by radius,
then converted to mass fractions by multiplying with `ps->m(n)`.
The species-mass table `ps->m` lives outside src/ and is a parameter. -/
def initialAbundance (m : Fin 3 → ℚ) (sfloor r_e rad : ℚ) : Fin 3 → ℚ :=
  let minval := sfloor / m ELEC
  -- index order (ELEC = 0, HYD = 1, HPLUS = 2), one assignment per species
  let numberDensity : Fin 3 → ℚ :=
    if rad ≤ r_e then
      ![minval, 1 / m HYD - minval, minval]
    else
      ![1 / m HYD - minval, minval, 1 / m HYD - minval]
  fun n => numberDensity n * m n

/-- `ProblemGenerator`: `pscalars->s(n,k,j,i) = initial_abundances(n,k,j,i) * dens`. -/
def initialSpeciesDensity (m : Fin 3 → ℚ) (sfloor r_e rad dens : ℚ) (n : Fin 3) : ℚ :=
  initialAbundance m sfloor r_e rad n * dens

/-! ## src/pgen/tripathi.cpp : MeshBlock::UserWorkInLoop, NaN check

Primitive values are embedded as `Option ℚ`: `none` models a value for
which `std::isnan` is true. -/

inductive PrimField where
  | dens
  | press
  | vel1
  | vel2
  | vel3
deriving DecidableEq, Repr

structure PrimCell where
  dens : Option ℚ
  press : Option ℚ
  vel1 : Option ℚ
  vel2 : Option ℚ
  vel3 : Option ℚ
deriving DecidableEq, Repr

/-- The else-if chain of the per-cell NaN check: the first primitive
quantity found to be NaN, in the order dens, press, vel1, vel2, vel3. -/
def cellNanField (c : PrimCell) : Option PrimField :=
  if c.dens = none then some .dens
  else if c.press = none then some .press
  else if c.vel1 = none then some .vel1
  else if c.vel2 = none then some .vel2
  else if c.vel3 = none then some .vel3
  else none

/-- The diagnostic assembled into `nan_msg` before `ATHENA_ERROR`:
quantity name, cell indices, mesh time, cycle count. -/
structure NanDiag where
  quantity : PrimField
  k : ℤ
  j : ℤ
  i : ℤ
  time : ℚ
  cycle : ℕ
deriving DecidableEq, Repr

/-- The NaN-checking part of `UserWorkInLoop`, iterating over the block's
cells in loop order; the first NaN aborts the step with the diagnostic. -/
def nanScan (time : ℚ) (cycle : ℕ) :
    List ((ℤ × ℤ × ℤ) × PrimCell) → Except NanDiag Unit
  | [] => Except.ok ()
  | (kji, c) :: rest =>
    match cellNanField c with
    | some f => Except.error ⟨f, kji.1, kji.2.1, kji.2.2, time, cycle⟩
    | none => nanScan time cycle rest

/-! ## src/radiation/radiation.cpp : Radiation::AddRadiationSourceTerm

`du` is a function of (variable index, k, j, i); each band contributes its
per-cell energy deposition `dflx` (computed by the external
`CalculateEnergyDeposition`) over the interior cells only. -/

def IDN : ℕ := 0
def IM1 : ℕ := 1
def IM2 : ℕ := 2
def IM3 : ℕ := 3
def IEN : ℕ := 4

structure Bounds where
  is : ℤ
  ie : ℤ
  js : ℤ
  je : ℤ
  ks : ℤ
  ke : ℤ
deriving DecidableEq, Repr

/-- Membership in the triple loop `k∈[ks,ke], j∈[js,je], i∈[is,ie]`. -/
def inInterior (b : Bounds) (k j i : ℤ) : Bool :=
  decide (b.ks ≤ k) && decide (k ≤ b.ke) && decide (b.js ≤ j) &&
  decide (j ≤ b.je) && decide (b.is ≤ i) && decide (i ≤ b.ie)

/-- One band's pass of the k/j/i loops:
`du(IEN,k,j,i) -= dt*dflx(i)/vol(i)` on interior cells. -/
def addBandSourceTerm (dt : ℚ) (vol : ℤ → ℤ → ℤ → ℚ) (b : Bounds)
    (dflx : ℤ → ℤ → ℤ → ℚ) (du : ℕ → ℤ → ℤ → ℤ → ℚ) : ℕ → ℤ → ℤ → ℤ → ℚ :=
  fun n k j i =>
    if n = IEN ∧ inInterior b k j i = true then
      du n k j i - dt * dflx k j i / vol k j i
    else du n k j i

/-- `AddRadiationSourceTerm`: the `while (p != NULL)` walk over the band
list, each band applying its pass to the accumulated `du`. -/
def addRadiationSourceTerm (dt : ℚ) (vol : ℤ → ℤ → ℤ → ℚ) (b : Bounds)
    (bands : List (ℤ → ℤ → ℤ → ℚ)) (du : ℕ → ℤ → ℤ → ℤ → ℚ) :
    ℕ → ℤ → ℤ → ℤ → ℚ :=
  bands.foldl (fun acc dflx => addBandSourceTerm dt vol b dflx acc) du

/-! ## src/pgen/tripathi.cpp : initial conditions and the replenish reset -/

structure InitParams where
  G : ℚ
  Mp : ℚ
  Rp : ℚ
  gas_gamma : ℚ
  rho_p : ℚ
  cs : ℚ
  space_density_factor : ℚ
  r_replenish : ℚ
deriving Repr

/-- `rho_func(r)`; `powQ` models the C `pow`. -/
def rho_func (powQ : ℚ → ℚ → ℚ) (p : InitParams) (r : ℚ) : ℚ :=
  let gm1 := p.gas_gamma - 1
  let K := powQ p.rho_p (1 - p.gas_gamma) * powQ p.cs 2
  let rho_term_1 := gm1 / p.gas_gamma * p.G * p.Mp / K
  let rho_term_2 := 1 / r - 1 / p.Rp
  let rho_term_3 := powQ p.rho_p gm1
  powQ (rho_term_1 * rho_term_2 + rho_term_3) (1 / gm1)

/-- `press_func(rho)`. -/
def press_func (powQ : ℚ → ℚ → ℚ) (p : InitParams) (rho : ℚ) : ℚ :=
  let K := powQ p.rho_p (1 - p.gas_gamma) * powQ p.cs 2
  K * powQ rho p.gas_gamma

/-- `SetInitialConditions(rad, dens, press, v1, v2, v3)` with
`r_0 = 0.5*Rp`, `r_e = 1.02*Rp`, `rho_0 = rho_func(r_0)`,
`rho_e = rho_func(r_e)`, `P_0 = press_func(rho_0)`, `P_e = press_func(rho_e)`
as set up in `Mesh::InitUserMeshData`.  Returns (dens, press, v1, v2, v3). -/
def setInitialConditions (powQ : ℚ → ℚ → ℚ) (p : InitParams) (rad : ℚ) :
    ℚ × ℚ × ℚ × ℚ × ℚ :=
  let r_0 := (1 / 2) * p.Rp
  let r_e := (102 / 100) * p.Rp
  let rho_0 := rho_func powQ p r_0
  let rho_e := rho_func powQ p r_e
  if rad ≤ r_0 then
    (rho_0, press_func powQ p rho_0, 0, 0, 0)
  else if rad ≤ r_e then
    let dens := rho_func powQ p rad
    (dens, press_func powQ p dens, 0, 0, 0)
  else
    (rho_e * p.space_density_factor, press_func powQ p rho_e, 0, 0, 0)

/-- The full per-cell fluid/scalar state touched by the replenish reset. -/
structure FullCell where
  wIPR : ℚ
  wIDN : ℚ
  wIV1 : ℚ
  wIV2 : ℚ
  wIV3 : ℚ
  uIEN : ℚ
  uIDN : ℚ
  uIM1 : ℚ
  uIM2 : ℚ
  uIM3 : ℚ
  s : Fin 3 → ℚ
  r : Fin 3 → ℚ

/-- The replenish block of `MeshBlock::UserWorkInLoop`: cells with
`rad <= r_replenish` are reset to the initial conditions in primitive,
conserved and scalar variables at once; other cells are untouched.
`initAbund n` is `initial_abundances(n,k,j,i)` for this cell. -/
def replenishCell (powQ : ℚ → ℚ → ℚ) (p : InitParams) (initAbund : Fin 3 → ℚ)
    (rad : ℚ) (c : FullCell) : FullCell :=
  if rad ≤ p.r_replenish then
    let gm1 := p.gas_gamma - 1
    let st := setInitialConditions powQ p rad
    let dens := st.1
    let press := st.2.1
    let v1 := st.2.2.1
    let v2 := st.2.2.2.1
    let v3 := st.2.2.2.2
    { wIPR := press, wIDN := dens, wIV1 := v1, wIV2 := v2, wIV3 := v3
      uIEN := press / gm1, uIDN := dens
      uIM1 := v1 * dens, uIM2 := v2 * dens, uIM3 := v3 * dens
      s := fun n => initAbund n * dens
      r := fun n => initAbund n }
  else c

/-! ## Theorems -/

/-- C7: For every cell and timestep, the ionization/recombination update of
`SourceTerms` (drum/pgen/tripathi.cpp) leaves the sum of species mass
densities unchanged: the signed per-species changes written to `ds(0)` and
`ds(1)` sum exactly to zero, for any rate values. -/
theorem c7_stoichiometric_conservation (powQ : ℚ → ℚ → ℚ) (expQ : ℚ → ℚ)
    (c : DrumCellIn) :
    ((drumSourceTermsCell powQ expQ c).ds0 - c.ds0)
      + ((drumSourceTermsCell powQ expQ c).ds1 - c.ds1) = 0 := by
  simp only [drumSourceTermsCell]
  ring

/-- C1 counterexample: a cell with neutral density `d = mh` (one neutral
per unit volume) and a radiative flux whose naive update consumes `2d`.
The code detects the overshoot (`overshoot = true`, message built but never
raised) yet applies the naive update: it consumes `2d`, not `d`, and the
resulting neutral density `s0 + Δs0 = -d` is negative — the claimed clamp
does not exist. -/
theorem c1_counterexample :
    (drumSourceTermsCell (fun _ _ => 0) (fun _ => 0)
        { s0 := mh, s1 := 0, radFluxIon := -(2 * Ry), dt := 1, vol := 1,
          wIPR := 1, wIDN := 1, rIon := 0, rd := 1,
          duIEN := 0, ds0 := 0, ds1 := 0 }).overshoot = true ∧
    (drumSourceTermsCell (fun _ _ => 0) (fun _ => 0)
        { s0 := mh, s1 := 0, radFluxIon := -(2 * Ry), dt := 1, vol := 1,
          wIPR := 1, wIDN := 1, rIon := 0, rd := 1,
          duIEN := 0, ds0 := 0, ds1 := 0 }).ds0 = -(2 * mh) ∧
    mh + (drumSourceTermsCell (fun _ _ => 0) (fun _ => 0)
        { s0 := mh, s1 := 0, radFluxIon := -(2 * Ry), dt := 1, vol := 1,
          wIPR := 1, wIDN := 1, rIon := 0, rd := 1,
          duIEN := 0, ds0 := 0, ds1 := 0 }).ds0 < 0 ∧
    -(2 * mh) ≠ -mh := by
  refine ⟨?_, ?_, ?_, ?_⟩ <;>
    norm_num [drumSourceTermsCell, nIonGain, nRecomb, tempOf, mh, Ry]

/-- C1 amended: when the naive update would consume more neutral mass than
is present (`n_ion_gain > n_neu`), `SourceTerms` detects the condition
(building a fatal-error message that is never raised, so nothing surfaces
as an error) but still applies the naive, unclamped stoichiometric update
`ds0 += (n_recomb - n_ion_gain)*mh`, which can drive the neutral density
negative; no rate scaling or flooring takes place. -/
theorem c1_no_depletion_clamp (powQ : ℚ → ℚ → ℚ) (expQ : ℚ → ℚ)
    (c : DrumCellIn) (h : nIonGain c > c.s0 / mh) :
    (drumSourceTermsCell powQ expQ c).overshoot = true ∧
    (drumSourceTermsCell powQ expQ c).ds0 =
      c.ds0 + (nRecomb powQ c - nIonGain c) * mh := by
  constructor
  · simp only [drumSourceTermsCell, decide_eq_true_eq]
    exact h
  · simp only [drumSourceTermsCell]

theorem c1_no_depletion_clamp_witness :
    (drumSourceTermsCell (fun _ _ => 0) (fun _ => 0)
        { s0 := mh, s1 := 0, radFluxIon := -(3 * Ry), dt := 1, vol := 1,
          wIPR := 1, wIDN := 1, rIon := 0, rd := 1,
          duIEN := 0, ds0 := 0, ds1 := 0 }).overshoot = true ∧
    (drumSourceTermsCell (fun _ _ => 0) (fun _ => 0)
        { s0 := mh, s1 := 0, radFluxIon := -(3 * Ry), dt := 1, vol := 1,
          wIPR := 1, wIDN := 1, rIon := 0, rd := 1,
          duIEN := 0, ds0 := 0, ds1 := 0 }).ds0 =
      0 + (nRecomb (fun _ _ => 0)
          { s0 := mh, s1 := 0, radFluxIon := -(3 * Ry), dt := 1, vol := 1,
            wIPR := 1, wIDN := 1, rIon := 0, rd := 1,
            duIEN := 0, ds0 := 0, ds1 := 0 }
        - nIonGain
          { s0 := mh, s1 := 0, radFluxIon := -(3 * Ry), dt := 1, vol := 1,
            wIPR := 1, wIDN := 1, rIon := 0, rd := 1,
            duIEN := 0, ds0 := 0, ds1 := 0 }) * mh :=
  c1_no_depletion_clamp (fun _ _ => 0) (fun _ => 0) _
    (by norm_num [nIonGain, mh, Ry])

/-- C2 counterexample: for a spectral sample whose wavelength equals the
absorber's threshold wavelength (`wave = lambda_0 = 1`), the code computes
`h = 1, q = 0`, not `h = q = 0`; so the claim's clause "for samples whose
wavelength is at or above the threshold wavelength, h = q = 0" fails at
equality (the code's branch is strictly `wave > lambda_0`). -/
theorem c2_counterexample :
    energyPartition 1 1 = (1, 0) ∧ energyPartition 1 1 ≠ (0, 0) := by
  constructor
  · norm_num [energyPartition]
  · norm_num [energyPartition]

/-- C2 amended: with a positive threshold wavelength, `h = 1, q = 0` at the
threshold wavelength; `h = q = 1/2` at half the threshold; `h = q = 0` for
wavelengths strictly above the threshold (photon energy strictly below the
ionization threshold); and `h = λ/λ_0, q = 1 - h` for wavelengths at or
below the threshold. -/
theorem c2_energy_partition (lambda0 wave : ℚ) (hpos : 0 < lambda0) :
    (wave = lambda0 → energyPartition lambda0 wave = (1, 0)) ∧
    (wave = lambda0 / 2 → energyPartition lambda0 wave = (1 / 2, 1 / 2)) ∧
    (lambda0 < wave → energyPartition lambda0 wave = (0, 0)) ∧
    (wave ≤ lambda0 →
      energyPartition lambda0 wave = (wave / lambda0, 1 - wave / lambda0)) := by
  have hne : lambda0 ≠ 0 := ne_of_gt hpos
  refine ⟨?_, ?_, ?_, ?_⟩
  · rintro rfl
    simp [energyPartition, div_self hne]
  · rintro rfl
    have hhalf : lambda0 / 2 ≤ lambda0 := by linarith
    rw [energyPartition, if_neg (not_lt.mpr hhalf)]
    have hkey : lambda0 / 2 / lambda0 = 1 / 2 := by
      rw [div_div, div_eq_div_iff (by positivity) (by norm_num)]
      ring
    rw [hkey]
    norm_num
  · intro h
    rw [energyPartition, if_pos h]
  · intro h
    rw [energyPartition, if_neg (not_lt.mpr h)]

theorem c2_energy_partition_witness :
    energyPartition 2 1 = (1 / 2, 1 / 2) :=
  (c2_energy_partition 2 1 (by norm_num)).2.1 (by norm_num)

/-- C3: the evaluation branch of a loaded cross-section table: below the
lowest tabulated energy the result is exactly zero; above the highest it is
the fatal out-of-domain error (no extrapolation); otherwise it is the
cubic-spline interpolant on the bracketing interval. -/
theorem c3_table_evaluation (mbConv : ℚ) (rows : Array TableRow)
    (energy ry : ℚ) (hne : rows.size ≠ 0) :
    (energy < rows[0]!.x →
      calculateCrossSection mbConv rows energy ry = Except.ok 0) ∧
    (¬ energy < rows[0]!.x → energy > rows[rows.size - 1]!.x →
      calculateCrossSection mbConv rows energy ry =
        Except.error "Energy too high error.") ∧
    (¬ energy < rows[0]!.x → ¬ energy > rows[rows.size - 1]!.x →
      calculateCrossSection mbConv rows energy ry =
        Except.ok (mbConv * splint rows[findPlace rows ry]!
          rows[findPlace rows ry + 1]!
          (splineSecondDerivs rows)[findPlace rows ry]!
          (splineSecondDerivs rows)[findPlace rows ry + 1]! ry)) := by
  refine ⟨?_, ?_, ?_⟩ <;> intros <;> simp [calculateCrossSection, hne, *]

theorem c3_table_evaluation_witness :
    calculateCrossSection 1 #[⟨1, 1⟩, ⟨2, 4⟩, ⟨3, 9⟩, ⟨4, 16⟩] 0 0 =
      Except.ok 0 :=
  (c3_table_evaluation 1 #[⟨1, 1⟩, ⟨2, 4⟩, ⟨3, 9⟩, ⟨4, 16⟩] 0 0
    (by decide)).1 (by decide)

/-- C4 counterexample: a table whose two consecutive rows have equal
independent-variable values (x = 1 twice) is accepted by the load scan —
the code's check is `file_spec[i].x < file_spec[i-1].x`, strict descent
only — whereas the claim says such a table must abort the load. -/
theorem c4_counterexample :
    loadTable [⟨1, 5⟩, ⟨1, 7⟩] = Except.ok [⟨1, 5⟩, ⟨1, 7⟩] ∧
    ([⟨1, 5⟩, ⟨1, 7⟩] : List TableRow).map TableRow.x = [1, 1] := by
  constructor
  · rfl
  · rfl

/-- Helper for C4: the load scan accepts exactly the tables whose
independent variable is non-decreasing between consecutive rows. -/
theorem loadScanOk_iff_chain : (rows : List TableRow) →
    (loadScanOk rows = true ↔ rows.Chain' (fun a b => a.x ≤ b.x))
  | [] => by simp [loadScanOk]
  | [a] => by simp [loadScanOk]
  | a :: b :: rest => by
    have ih := loadScanOk_iff_chain (b :: rest)
    by_cases h : b.x < a.x
    · simp [loadScanOk, h, List.chain'_cons, not_le.mpr h]
    · simp [loadScanOk, h, List.chain'_cons, not_lt.mp h, ih]

/-- C4 amended: loading a cross-section table aborts with the
malformed-table error exactly when some consecutive pair of rows is
strictly descending in the independent variable; consecutive rows with
equal values pass the check (the comparison is `<`, not `<=`), so tables
that are non-decreasing but not strictly ascending load successfully. -/
theorem c4_load_aborts_iff_descent (rows : List TableRow) :
    loadTable rows = Except.ok rows ↔
      rows.Chain' (fun a b => a.x ≤ b.x) := by
  rw [← loadScanOk_iff_chain rows]
  unfold loadTable
  by_cases h : loadScanOk rows <;> simp [h]

/-- C5 counterexample: for a sample at half the threshold wavelength
(`wave_nm = nm_0/2`), the absorber's partition gives `q = 1/2`, but
`EnergyAbsorption` (drum/pgen/tripathi.cpp) routes a hardcoded fraction
`1 - 0.15 = 17/20` of the absorbed flux into the ionization accumulator
(the `1 - wave_nm/nm_0` line is commented out), so the routed fraction is
not the q-fraction. -/
theorem c5_counterexample :
    (energyAbsorption (1 / 10 ^ 9) 1 0 (nm0 / 2)).2 = 17 / 20 ∧
    1 - ((nm0 / 2) * (1 / 10 ^ 9) * 10 ^ 9) / nm0 = (1 / 2 : ℚ) ∧
    (17 / 20 : ℚ) ≠ 1 / 2 := by
  refine ⟨?_, ?_, ?_⟩
  · norm_num [energyAbsorption, nm0]
  · norm_num [nm0]
  · norm_num

/-- C5 amended: for wavelengths at or below the ionization threshold,
`EnergyAbsorption` routes the fixed fraction `1 - 0.15 = 0.85` of the
absorbed flux into the ionization accumulator and returns `0.15` of it as
local heating, independent of wavelength; `SourceTerms` then converts the
accumulated ionizing energy into an ion number gain by dividing by the
Rydberg energy `Ry` (as the per-photon quantum) and the cell volume, the
gain entering `ds(1)` in mass-equivalent units. -/
theorem c5_fixed_energy_fraction (conv flux r wave : ℚ)
    (powQ : ℚ → ℚ → ℚ) (expQ : ℚ → ℚ) (c : DrumCellIn)
    (hbelow : (wave * conv) * 10 ^ 9 ≤ nm0) :
    (energyAbsorption conv flux r wave).2 - r = (1 - 15 / 100) * flux ∧
    (energyAbsorption conv flux r wave).1 = flux * (15 / 100) ∧
    (drumSourceTermsCell powQ expQ c).ds1 - c.ds1 =
      ((-c.dt * c.radFluxIon) / Ry / c.vol - nRecomb powQ c) * mh := by
  refine ⟨?_, ?_, ?_⟩
  · rw [energyAbsorption]
    rw [if_neg (not_lt.mpr hbelow)]
    ring
  · rw [energyAbsorption]
    rw [if_neg (not_lt.mpr hbelow)]
  · simp only [drumSourceTermsCell, nIonGain]
    ring

theorem c5_fixed_energy_fraction_witness :
    (energyAbsorption 0 1 0 0).2 - 0 = (1 - 15 / 100) * 1 ∧
    (energyAbsorption 0 1 0 0).1 = 1 * (15 / 100) ∧
    (drumSourceTermsCell (fun _ _ => 0) (fun _ => 0)
        { s0 := mh, s1 := 0, radFluxIon := -Ry, dt := 1, vol := 1,
          wIPR := 1, wIDN := 1, rIon := 0, rd := 1,
          duIEN := 0, ds0 := 0, ds1 := 0 }).ds1 - 0 =
      ((-(1 : ℚ) * -Ry) / Ry / 1 - nRecomb (fun _ _ => 0)
          { s0 := mh, s1 := 0, radFluxIon := -Ry, dt := 1, vol := 1,
            wIPR := 1, wIDN := 1, rIon := 0, rd := 1,
            duIEN := 0, ds0 := 0, ds1 := 0 }) * mh :=
  c5_fixed_energy_fraction 0 1 0 0 (fun _ _ => 0) (fun _ => 0) _
    (by norm_num [nm0])

/-- C6: after problem-generator initialization, in every cell the species
mass densities set from `SetInitialAbundances` sum to the total gas mass
density (the mass fractions sum to one) and are all nonnegative, given the
species-mass metadata relation m(ELEC) + m(HPLUS) = m(HYD) (mass-equivalent
units of the ionization stoichiometry), positive electron and hydrogen
masses, a nonnegative scalar floor not exceeding the hydrogen abundance
ceiling, and a nonnegative cell density. -/
theorem c6_initial_abundances_sum (m : Fin 3 → ℚ) (sfloor r_e rad dens : ℚ)
    (hmass : m ELEC + m HPLUS = m HYD)
    (hE : 0 < m ELEC) (hH : 0 < m HYD) (hP : 0 ≤ m HPLUS)
    (hs : 0 ≤ sfloor) (hmin : sfloor / m ELEC ≤ 1 / m HYD) (hd : 0 ≤ dens) :
    (∑ n : Fin 3, initialSpeciesDensity m sfloor r_e rad dens n) = dens ∧
    ∀ n : Fin 3, 0 ≤ initialSpeciesDensity m sfloor r_e rad dens n := by
  have hE0 : m ELEC ≠ 0 := ne_of_gt hE
  have hH0 : m HYD ≠ 0 := ne_of_gt hH
  have hmv : 0 ≤ sfloor / m ELEC := div_nonneg hs hE.le
  have hceil : 0 ≤ 1 / m HYD - sfloor / m ELEC := sub_nonneg.mpr hmin
  have hmass' : m HYD = m ELEC + m HPLUS := hmass.symm
  have hE0' : m 0 ≠ 0 := hE0
  have hsum0 : m 0 + m 2 ≠ 0 := by
    rw [show m 0 + m 2 = m ELEC + m HPLUS from rfl, hmass]
    exact hH0
  constructor
  · have h12 : m 1 = m 0 + m 2 := by
      simpa [ELEC, HYD, HPLUS] using hmass.symm
    simp only [initialSpeciesDensity, initialAbundance, Fin.sum_univ_three,
      Matrix.cons_val_zero, Matrix.cons_val_one, Matrix.head_cons,
      Matrix.cons_val_two, Matrix.tail_cons, ELEC, HYD, HPLUS]
    by_cases hr : rad ≤ r_e <;>
      simp only [hr, ite_true, ite_false, if_true, if_false] <;>
      rw [h12] <;>
      field_simp <;>
      ring
  · intro n
    simp only [initialSpeciesDensity, initialAbundance]
    by_cases hr : rad ≤ r_e <;>
      simp only [hr, ite_true, ite_false, if_true, if_false] <;>
      fin_cases n <;>
      simp only [Matrix.cons_val_zero, Matrix.cons_val_one, Matrix.head_cons,
        Matrix.cons_val_two, Matrix.tail_cons] <;>
      refine mul_nonneg (mul_nonneg ?_ ?_) hd <;>
      first
        | exact hmv
        | exact hceil
        | exact hE.le
        | exact hH.le
        | exact hP

theorem c6_initial_abundances_sum_witness :
    (∑ n : Fin 3, initialSpeciesDensity
        (fun n => if n = ELEC then 1 else if n = HYD then 1837 else 1836)
        (1 / 10 ^ 6) 1 0 3 n) = 3 ∧
    ∀ n : Fin 3, 0 ≤ initialSpeciesDensity
        (fun n => if n = ELEC then 1 else if n = HYD then 1837 else 1836)
        (1 / 10 ^ 6) 1 0 3 n :=
  c6_initial_abundances_sum
    (fun n => if n = ELEC then 1 else if n = HYD then 1837 else 1836)
    (1 / 10 ^ 6) 1 0 3
    (by norm_num [ELEC, HYD, HPLUS, Fin.ext_iff])
    (by norm_num [ELEC, HYD, HPLUS, Fin.ext_iff])
    (by norm_num [ELEC, HYD, HPLUS, Fin.ext_iff])
    (by norm_num [ELEC, HYD, HPLUS, Fin.ext_iff])
    (by norm_num)
    (by norm_num [ELEC, HYD, HPLUS, Fin.ext_iff])
    (by norm_num)

/-- C8: the end-of-step NaN check of `MeshBlock::UserWorkInLoop`
(src/pgen/tripathi.cpp): if no primitive quantity of any checked cell is
NaN the scan aborts nothing; if some cell has a NaN primitive, the scan
aborts with a diagnostic carrying the simulation time, the cycle count,
the cell's (k, j, i) coordinates, and the name of a primitive quantity
that is indeed NaN in that cell. -/
theorem c8_nan_check_fatal (time : ℚ) (cycle : ℕ)
    (cells : List ((ℤ × ℤ × ℤ) × PrimCell)) :
    (nanScan time cycle cells = Except.ok () ↔
      ∀ p ∈ cells, cellNanField p.2 = none) ∧
    ((∃ p ∈ cells, cellNanField p.2 ≠ none) →
      ∃ d : NanDiag, nanScan time cycle cells = Except.error d ∧
        d.time = time ∧ d.cycle = cycle ∧
        ∃ c : PrimCell, ((d.k, d.j, d.i), c) ∈ cells ∧
          cellNanField c = some d.quantity) := by
  induction cells with
  | nil =>
    constructor
    · simp [nanScan]
    · rintro ⟨p, hp, -⟩
      simp at hp
  | cons hd tl ih =>
    obtain ⟨⟨k0, j0, i0⟩, c0⟩ := hd
    rcases hc : cellNanField c0 with - | f
    · constructor
      · rw [show nanScan time cycle (((k0, j0, i0), c0) :: tl)
              = nanScan time cycle tl by simp [nanScan, hc]]
        simp only [List.mem_cons]
        constructor
        · intro h
          rintro p (rfl | hp)
          · exact hc
          · exact (ih.1.mp h) p hp
        · intro h
          exact ih.1.mpr (fun p hp => h p (Or.inr hp))
      · rintro ⟨p, hp, hnan⟩
        rcases List.mem_cons.mp hp with rfl | hp'
        · exact absurd hc hnan
        · obtain ⟨d, hrun, ht, hcy, c, hmem, hfield⟩ := ih.2 ⟨p, hp', hnan⟩
          refine ⟨d, ?_, ht, hcy, c, List.mem_cons_of_mem _ hmem, hfield⟩
          rw [show nanScan time cycle (((k0, j0, i0), c0) :: tl)
                = nanScan time cycle tl by simp [nanScan, hc]]
          exact hrun
    · have hrun : nanScan time cycle (((k0, j0, i0), c0) :: tl)
          = Except.error ⟨f, k0, j0, i0, time, cycle⟩ := by
        simp [nanScan, hc]
      constructor
      · rw [hrun]
        constructor
        · intro h
          exact absurd h (by simp)
        · intro h
          have := h ((k0, j0, i0), c0) (List.mem_cons_self _ _)
          simp [hc] at this
      · intro _
        exact ⟨⟨f, k0, j0, i0, time, cycle⟩, hrun, rfl, rfl, c0,
          List.mem_cons_self _ _, hc⟩

theorem c8_nan_check_fatal_witness :
    ∃ d : NanDiag,
      nanScan 5 7 [((1, 2, 3),
          ⟨some 1, none, some 0, some 0, some 0⟩)] = Except.error d ∧
      d.time = 5 ∧ d.cycle = 7 ∧
      ∃ c : PrimCell, ((d.k, d.j, d.i), c) ∈
          [(((1 : ℤ), (2 : ℤ), (3 : ℤ)),
            (⟨some 1, none, some 0, some 0, some 0⟩ : PrimCell))] ∧
        cellNanField c = some d.quantity :=
  (c8_nan_check_fatal 5 7 _).2
    ⟨((1, 2, 3), ⟨some 1, none, some 0, some 0, some 0⟩),
      List.mem_singleton.mpr rfl, by decide⟩

/-- C9: `Radiation::AddRadiationSourceTerm` changes only the energy
component `IEN` of `du`, and only on interior cells, where it subtracts
`dt` times the per-band energy-deposition flux over the cell volume,
accumulated over all radiation bands; every other variable index and every
non-interior (ghost) cell keeps its value. -/
theorem c9_radiation_source_energy_only (dt : ℚ) (vol : ℤ → ℤ → ℤ → ℚ)
    (b : Bounds) (bands : List (ℤ → ℤ → ℤ → ℚ)) (du : ℕ → ℤ → ℤ → ℤ → ℚ)
    (n : ℕ) (k j i : ℤ) :
    (n = IEN → inInterior b k j i = true →
      addRadiationSourceTerm dt vol b bands du n k j i =
        du n k j i -
          dt * ((bands.map (fun dflx => dflx k j i / vol k j i)).sum)) ∧
    (n ≠ IEN → addRadiationSourceTerm dt vol b bands du n k j i = du n k j i) ∧
    (inInterior b k j i = false →
      addRadiationSourceTerm dt vol b bands du n k j i = du n k j i) := by
  induction bands generalizing du with
  | nil =>
    refine ⟨?_, ?_, ?_⟩ <;> intros <;>
      simp [addRadiationSourceTerm]
  | cons dflx rest ih =>
    refine ⟨?_, ?_, ?_⟩
    · intro hn hin
      have step : addRadiationSourceTerm dt vol b (dflx :: rest) du n k j i
          = addRadiationSourceTerm dt vol b rest
              (addBandSourceTerm dt vol b dflx du) n k j i := rfl
      rw [step, (ih (addBandSourceTerm dt vol b dflx du)).1 hn hin]
      rw [addBandSourceTerm, if_pos ⟨hn, hin⟩]
      simp only [List.map_cons, List.sum_cons]
      ring
    · intro hn
      have step : addRadiationSourceTerm dt vol b (dflx :: rest) du n k j i
          = addRadiationSourceTerm dt vol b rest
              (addBandSourceTerm dt vol b dflx du) n k j i := rfl
      rw [step, (ih (addBandSourceTerm dt vol b dflx du)).2.1 hn]
      rw [addBandSourceTerm, if_neg (by tauto)]
    · intro hin
      have step : addRadiationSourceTerm dt vol b (dflx :: rest) du n k j i
          = addRadiationSourceTerm dt vol b rest
              (addBandSourceTerm dt vol b dflx du) n k j i := rfl
      rw [step, (ih (addBandSourceTerm dt vol b dflx du)).2.2 hin]
      rw [addBandSourceTerm, if_neg (by simp [hin])]

theorem c9_radiation_source_energy_only_witness :
    addRadiationSourceTerm 3 (fun _ _ _ => 1) ⟨0, 0, 0, 0, 0, 0⟩
      [fun _ _ _ => 2] (fun _ _ _ _ => 10) IEN 0 0 0 = 4 := by
  have h := (c9_radiation_source_energy_only 3 (fun _ _ _ => 1)
    ⟨0, 0, 0, 0, 0, 0⟩ [fun _ _ _ => 2] (fun _ _ _ _ => 10)
    IEN 0 0 0).1 rfl (by decide)
  rw [h]
  norm_num

/-- C10: the replenish block of `MeshBlock::UserWorkInLoop`
(src/pgen/tripathi.cpp): a cell with radius at most `r_replenish` is reset
to the `SetInitialConditions` state simultaneously in primitive variables,
conserved variables (energy `press/(gamma-1)`, momenta `velocity * dens`),
and species scalars (`r(n) = initial_abundances(n)`,
`s(n) = initial_abundances(n) * dens`); a cell with radius exceeding
`r_replenish` is left entirely unchanged. -/
theorem c10_replenish_reset (powQ : ℚ → ℚ → ℚ) (p : InitParams)
    (initAbund : Fin 3 → ℚ) (rad : ℚ) (c : FullCell) :
    (rad ≤ p.r_replenish →
      replenishCell powQ p initAbund rad c =
        { wIPR := (setInitialConditions powQ p rad).2.1
          wIDN := (setInitialConditions powQ p rad).1
          wIV1 := (setInitialConditions powQ p rad).2.2.1
          wIV2 := (setInitialConditions powQ p rad).2.2.2.1
          wIV3 := (setInitialConditions powQ p rad).2.2.2.2
          uIEN := (setInitialConditions powQ p rad).2.1 / (p.gas_gamma - 1)
          uIDN := (setInitialConditions powQ p rad).1
          uIM1 := (setInitialConditions powQ p rad).2.2.1 *
            (setInitialConditions powQ p rad).1
          uIM2 := (setInitialConditions powQ p rad).2.2.2.1 *
            (setInitialConditions powQ p rad).1
          uIM3 := (setInitialConditions powQ p rad).2.2.2.2 *
            (setInitialConditions powQ p rad).1
          s := fun n => initAbund n * (setInitialConditions powQ p rad).1
          r := fun n => initAbund n }) ∧
    (p.r_replenish < rad → replenishCell powQ p initAbund rad c = c) := by
  constructor
  · intro h
    rw [replenishCell, if_pos h]
  · intro h
    rw [replenishCell, if_neg (not_le.mpr h)]

theorem c10_replenish_reset_witness :
    replenishCell (fun a b => a + b)
        { G := 1, Mp := 1, Rp := 1, gas_gamma := 2, rho_p := 1, cs := 1,
          space_density_factor := 1, r_replenish := 1 }
        (fun _ => 1 / 3) 0
        { wIPR := 9, wIDN := 9, wIV1 := 9, wIV2 := 9, wIV3 := 9,
          uIEN := 9, uIDN := 9, uIM1 := 9, uIM2 := 9, uIM3 := 9,
          s := fun _ => 9, r := fun _ => 9 } =
      { wIPR := (setInitialConditions (fun a b => a + b)
          { G := 1, Mp := 1, Rp := 1, gas_gamma := 2, rho_p := 1, cs := 1,
            space_density_factor := 1, r_replenish := 1 } 0).2.1
        wIDN := (setInitialConditions (fun a b => a + b)
          { G := 1, Mp := 1, Rp := 1, gas_gamma := 2, rho_p := 1, cs := 1,
            space_density_factor := 1, r_replenish := 1 } 0).1
        wIV1 := (setInitialConditions (fun a b => a + b)
          { G := 1, Mp := 1, Rp := 1, gas_gamma := 2, rho_p := 1, cs := 1,
            space_density_factor := 1, r_replenish := 1 } 0).2.2.1
        wIV2 := (setInitialConditions (fun a b => a + b)
          { G := 1, Mp := 1, Rp := 1, gas_gamma := 2, rho_p := 1, cs := 1,
            space_density_factor := 1, r_replenish := 1 } 0).2.2.2.1
        wIV3 := (setInitialConditions (fun a b => a + b)
          { G := 1, Mp := 1, Rp := 1, gas_gamma := 2, rho_p := 1, cs := 1,
            space_density_factor := 1, r_replenish := 1 } 0).2.2.2.2
        uIEN := (setInitialConditions (fun a b => a + b)
          { G := 1, Mp := 1, Rp := 1, gas_gamma := 2, rho_p := 1, cs := 1,
            space_density_factor := 1, r_replenish := 1 } 0).2.1 / (2 - 1)
        uIDN := (setInitialConditions (fun a b => a + b)
          { G := 1, Mp := 1, Rp := 1, gas_gamma := 2, rho_p := 1, cs := 1,
            space_density_factor := 1, r_replenish := 1 } 0).1
        uIM1 := (setInitialConditions (fun a b => a + b)
          { G := 1, Mp := 1, Rp := 1, gas_gamma := 2, rho_p := 1, cs := 1,
            space_density_factor := 1, r_replenish := 1 } 0).2.2.1 *
          (setInitialConditions (fun a b => a + b)
          { G := 1, Mp := 1, Rp := 1, gas_gamma := 2, rho_p := 1, cs := 1,
            space_density_factor := 1, r_replenish := 1 } 0).1
        uIM2 := (setInitialConditions (fun a b => a + b)
          { G := 1, Mp := 1, Rp := 1, gas_gamma := 2, rho_p := 1, cs := 1,
            space_density_factor := 1, r_replenish := 1 } 0).2.2.2.1 *
          (setInitialConditions (fun a b => a + b)
          { G := 1, Mp := 1, Rp := 1, gas_gamma := 2, rho_p := 1, cs := 1,
            space_density_factor := 1, r_replenish := 1 } 0).1
        uIM3 := (setInitialConditions (fun a b => a + b)
          { G := 1, Mp := 1, Rp := 1, gas_gamma := 2, rho_p := 1, cs := 1,
            space_density_factor := 1, r_replenish := 1 } 0).2.2.2.2 *
          (setInitialConditions (fun a b => a + b)
          { G := 1, Mp := 1, Rp := 1, gas_gamma := 2, rho_p := 1, cs := 1,
            space_density_factor := 1, r_replenish := 1 } 0).1
        s := fun _ => (1 / 3 : ℚ) * (setInitialConditions (fun a b => a + b)
          { G := 1, Mp := 1, Rp := 1, gas_gamma := 2, rho_p := 1, cs := 1,
            space_density_factor := 1, r_replenish := 1 } 0).1
        r := fun _ => 1 / 3 } :=
  (c10_replenish_reset (fun a b => a + b)
    { G := 1, Mp := 1, Rp := 1, gas_gamma := 2, rho_p := 1, cs := 1,
      space_density_factor := 1, r_replenish := 1 }
    (fun _ => 1 / 3) 0
    { wIPR := 9, wIDN := 9, wIV1 := 9, wIV2 := 9, wIV3 := 9,
      uIEN := 9, uIDN := 9, uIM1 := 9, uIM2 := 9, uIM3 := 9,
      s := fun _ => 9, r := fun _ => 9 }).1 (by norm_num)

end SHMEXO
